import Mathlib

/-!
# Verification of the DingusPPC MacIO / PCI-host core

Shallow embedding of the byte-lane codec (`pci_conv_rd_data` /
`pci_conv_wr_data` from the PCI host header) and of the GrandCentral
I/O-controller dispatcher and interrupt aggregator
(`devices/ioctrl/grandcentral.cpp`), with theorems checking the
natural-language specification against the code.

Machine integers are represented as `Nat` with explicit `% 2^32`
truncation where 32-bit wraparound matters.
-/

namespace DingusPPC

/-! ## Modelled endian/bit helpers

`BYTESWAP_16`, `BYTESWAP_32` (from `endianswap.h`) and `ROTL_32`,
`ROTR_32` (from `core/bitops.h`) are used by the sources but those
headers are not part of the repository snapshot. -/

/-- Modelled from the spec: `BYTESWAP_16` from `endianswap.h` (missing from
the snapshot) swaps the two bytes of a 16-bit value; the result is a
16-bit value (the builtin byte-swap truncates to `uint16_t`). -/
def byteswap16 (v : Nat) : Nat :=
  v % 2 ^ 8 * 2 ^ 8 + v / 2 ^ 8 % 2 ^ 8

/-- Modelled from the spec: `BYTESWAP_32` from `endianswap.h` (missing from
the snapshot) reverses the four bytes of a 32-bit value. -/
def byteswap32 (v : Nat) : Nat :=
  v % 2 ^ 8 * 2 ^ 24 + v / 2 ^ 8 % 2 ^ 8 * 2 ^ 16 +
  v / 2 ^ 16 % 2 ^ 8 * 2 ^ 8 + v / 2 ^ 24 % 2 ^ 8

/-- Modelled from the spec: `ROTL_32` from `core/bitops.h` (missing from
the snapshot) rotates a 32-bit value left by `n` bits (used with
`n` = 8 or 16). -/
def rotl32 (v n : Nat) : Nat :=
  v % 2 ^ (32 - n) * 2 ^ n + v / 2 ^ (32 - n)

/-- Modelled from the spec: `ROTR_32` from `core/bitops.h` (missing from
the snapshot) rotates a 32-bit value right by `n` bits. -/
def rotr32 (v n : Nat) : Nat :=
  v % 2 ^ n * 2 ^ (32 - n) + v / 2 ^ n

/-! ## Byte-lane codec (`pci_conv_rd_data` / `pci_conv_wr_data`)

Faithful embedding of the two conversion helpers of the PCI host
header.  `AccessDetails` mirrors the C struct; the two functions switch
on the discriminant `size << 2 | offset` exactly as the source does. -/

/-- PCI config space access details (C struct `AccessDetails`,
fields are `uint8_t`). -/
structure AccessDetails where
  size   : Nat
  offset : Nat
  flags  : Nat

def PCI_CONFIG_READ : Nat := 0
def PCI_CONFIG_WRITE : Nat := 1

/-- The helper `pci_conv_rd_data(value, details)`: size/offset dependent byte-lane
extraction from a 32-bit backing value. -/
def pci_conv_rd_data (value : Nat) (details : AccessDetails) : Nat :=
  match details.size <<< 2 ||| details.offset with
  -- Bytes
  | 0x04 => value &&& 0xFF                                   -- 0
  | 0x05 => (value >>> 8) &&& 0xFF                           -- 1
  | 0x06 => (value >>> 16) &&& 0xFF                          -- 2
  | 0x07 => (value >>> 24) &&& 0xFF                          -- 3
  -- Words
  | 0x08 => byteswap16 value                                 -- 0 1
  | 0x09 => byteswap16 ((value >>> 8) &&& 0xFFFF)            -- 1 2
  | 0x0A => byteswap16 ((value >>> 16) &&& 0xFFFF)           -- 2 3
  | 0x0B => ((value >>> 16) &&& 0xFF00) ||| (value &&& 0xFF) -- 3 0
  -- Dwords
  | 0x10 => byteswap32 value                                 -- 0 1 2 3
  | 0x11 => rotl32 (byteswap32 value) 8                      -- 1 2 3 0
  | 0x12 => rotl32 (byteswap32 value) 16                     -- 2 3 0 1
  | 0x13 => rotr32 (byteswap32 value) 8                      -- 3 0 1 2
  | _ => 0xFFFFFFFF

/-- The helper `pci_conv_wr_data(v1, v2, details)`: endian-swap `v2` for the given
size and merge it into the byte lanes of `v1` addressed by
size/offset.  The C complements (`~0xFF` etc.) are written as their
32-bit literal values. -/
def pci_conv_wr_data (v1 v2 : Nat) (details : AccessDetails) : Nat :=
  match details.size <<< 2 ||| details.offset with
  -- Bytes
  | 0x04 => (v1 &&& 0xFFFFFF00) |||  (v2 &&& 0xFF)           --  3  2  1 d0
  | 0x05 => (v1 &&& 0xFFFF00FF) ||| ((v2 &&& 0xFF) <<< 8)    --  3  2 d0  0
  | 0x06 => (v1 &&& 0xFF00FFFF) ||| ((v2 &&& 0xFF) <<< 16)   --  3 d0  1  0
  | 0x07 => (v1 &&& 0x00FFFFFF) ||| ((v2 &&& 0xFF) <<< 24)   -- d0  2  1  0
  -- Words
  | 0x08 => (v1 &&& 0xFFFF0000) |||  byteswap16 v2           --  3  2 d1 d0
  | 0x09 => (v1 &&& 0xFF0000FF) ||| (byteswap16 v2 <<< 8)    --  3 d1 d0  0
  | 0x0A => (v1 &&& 0x0000FFFF) ||| (byteswap16 v2 <<< 16)   -- d1 d0  1  0
  | 0x0B => (v1 &&& 0x00FFFF00) ||| ((v2 &&& 0xFF00) <<< 16) |||
            (v2 &&& 0xFF)                                    -- d0  2  1 d1
  -- Dwords
  | 0x10 => byteswap32 v2                                    -- d3 d2 d1 d0
  | 0x11 => rotl32 (byteswap32 v2) 8                         -- d2 d1 d0 d3
  | 0x12 => rotl32 (byteswap32 v2) 16                        -- d1 d0 d3 d2
  | 0x13 => rotr32 (byteswap32 v2) 8                         -- d0 d3 d2 d1
  | _ => 0xFFFFFFFF

/-! ## GrandCentral I/O controller (`devices/ioctrl/grandcentral.cpp`)

The dispatcher decodes an offset into one of three windows (device
registers, DMA registers, interrupt control) and routes to a subdevice
or handles the access itself.  Subdevices are external collaborators,
so a routed access is represented by a constructor carrying exactly
the arguments the C++ code passes to the subdevice call. -/

/-- Modelled from the spec: interrupt-control register offset of the
events register (`MIO_INT_EVENTS1`, from `macio.h` which is outside
the snapshot; the spec leaves the numeric value to a consistent
controller-specific constant table). -/
def MIO_INT_EVENTS1 : Nat := 0x20

/-- Modelled from the spec: interrupt mask register offset
(`MIO_INT_MASK1`, from `macio.h`, outside the snapshot). -/
def MIO_INT_MASK1 : Nat := 0x24

/-- Modelled from the spec: interrupt clear register offset
(`MIO_INT_CLEAR1`, from `macio.h`, outside the snapshot). -/
def MIO_INT_CLEAR1 : Nat := 0x28

/-- Modelled from the spec: interrupt levels register offset
(`MIO_INT_LEVELS1`, from `macio.h`, outside the snapshot). -/
def MIO_INT_LEVELS1 : Nat := 0x2C

/-- Modelled from the spec: the clear-all bit of a value written to the
clear register (`MACIO_INT_CLR`, from `macio.h`, outside the
snapshot). -/
def MACIO_INT_CLR : Nat := 0x80

/-- Modelled from the spec: the delivery-mode bit of the mask register;
set means legacy 68k interrupt emulation mode, clear means the
unimplemented native mode (`MACIO_INT_MODE`, from `macio.h`, outside
the snapshot). -/
def MACIO_INT_MODE : Nat := 0x80000000

/-- Mutable GrandCentral controller state touched by the modelled
operations: the interrupt register triple and the NVRAM high-address
latch (all `uint32_t` members). -/
structure GCState where
  int_mask      : Nat
  int_levels    : Nat
  int_events    : Nat
  nvram_addr_hi : Nat
deriving DecidableEq

/-- Outcome of `GrandCentral::read`: either an access routed to a
subdevice (constructor arguments are exactly what the C++ code passes
to the subdevice's read), or a value the controller returns itself, or
an unmapped access (logged, returns 0). -/
inductive GCRead where
  | scsi (reg : Nat)
  | mace (reg : Nat)
  | escc (reg : Nat)
  | awacs (reg size : Nat)
  | viacuda (reg : Nat)
  | boardReg1 (v : Nat)
  | nvramData (addr : Nat)
  | sndOutDma (reg size : Nat)
  | intMask (v : Nat)
  | intLevels (v : Nat)
  | intEvents (v : Nat)
  | unmappedRead
deriving DecidableEq

/-- Outcome of `GrandCentral::write`: a routed subdevice write, an
internal state update (NVRAM high address, interrupt mask/clear), or
an unmapped write (logged, no effect). -/
inductive GCWrite where
  | scsi (reg v : Nat)
  | mace (reg v : Nat)
  | escc (reg v : Nat)
  | awacs (reg v size : Nat)
  | viacuda (reg v : Nat)
  | nvramHi
  | nvramData (addr v : Nat)
  | sndOutDma (reg v size : Nat)
  | intMaskW
  | intClearW
  | unmappedWrite
deriving DecidableEq

/-- The (window, subdevice, local offset) routing triple, with the
state-dependent payloads (returned values, written values, the NVRAM
high-address contribution) erased. -/
inductive GCRoute where
  | scsi (reg : Nat)
  | mace (reg : Nat)
  | escc (reg : Nat)
  | awacs (reg : Nat)
  | viacuda (reg : Nat)
  | board
  | nvramData (localOff : Nat)
  | nvramHi
  | sndOutDma (reg : Nat)
  | intMask
  | intLevels
  | intEvents
  | intClear
  | unmapped
deriving DecidableEq

/-- Routing triple of a read outcome.  For the NVRAM data subdevice the
local offset is the low five bits of the byte address (the
offset-derived part; the rest comes from the high-address latch). -/
def GCRead.route : GCRead → GCRoute
  | .scsi r => .scsi r
  | .mace r => .mace r
  | .escc r => .escc r
  | .awacs r _ => .awacs r
  | .viacuda r => .viacuda r
  | .boardReg1 _ => .board
  | .nvramData a => .nvramData (a % 32)
  | .sndOutDma r _ => .sndOutDma r
  | .intMask _ => .intMask
  | .intLevels _ => .intLevels
  | .intEvents _ => .intEvents
  | .unmappedRead => .unmapped

/-- The value `GrandCentral::read` returns without consulting a
subdevice: `some v` for controller-handled reads (unmapped reads
return 0), `none` when the value comes from the routed subdevice. -/
def GCRead.retval : GCRead → Option Nat
  | .boardReg1 v => some v
  | .intMask v => some v
  | .intLevels v => some v
  | .intEvents v => some v
  | .unmappedRead => some 0
  | _ => none

/-- Routing triple of a write outcome. -/
def GCWrite.route : GCWrite → GCRoute
  | .scsi r _ => .scsi r
  | .mace r _ => .mace r
  | .escc r _ => .escc r
  | .awacs r _ _ => .awacs r
  | .viacuda r _ => .viacuda r
  | .nvramHi => .nvramHi
  | .nvramData a _ => .nvramData (a % 32)
  | .sndOutDma r _ _ => .sndOutDma r
  | .intMaskW => .intMask
  | .intClearW => .intClear
  | .unmappedWrite => .unmapped

/-- Embedding of `GrandCentral::read(reg_start, offset, size)`.  The state is passed
through unchanged (the C++ method assigns no member); the second
component describes where the access goes and what the controller
itself returns. -/
def gc_read (s : GCState) (offset size : Nat) : GCState × GCRead :=
  if offset &&& 0x10000 ≠ 0 then -- Device register space
    match (offset >>> 12) &&& 0xF with
    | 0x0 => (s, .scsi ((offset >>> 4) &&& 0xF))
    | 0x1 => (s, .mace ((offset >>> 4) &&& 0x1F))
    | 0x2 => -- ESCC compatible addressing, falls through to MacRISC
      if (offset &&& 0xFF) < 16 then (s, .escc ((offset >>> 1) &&& 0xF))
      else (s, .escc ((offset >>> 4) &&& 0xF))
    | 0x3 => (s, .escc ((offset >>> 4) &&& 0xF))
    | 0x4 => (s, .awacs (offset &&& 0xFF) size)
    | 0x6 => (s, .viacuda ((offset >>> 9) &&& 0xF))
    | 0x7 => (s, .viacuda ((offset >>> 9) &&& 0xF))
    | 0xA => (s, .boardReg1 (byteswap32 0x100))
    | 0xF => (s, .nvramData
        (((s.nvram_addr_hi <<< 5) + ((offset >>> 4) &&& 0x1F)) % 4294967296))
    | _ => (s, .unmappedRead)
  else if offset &&& 0x8000 ≠ 0 then -- DMA register space
    match (offset >>> 12) &&& 0xF with
    | 0x8 => (s, .sndOutDma (offset &&& 0xFF) size)
    | _ => (s, .unmappedRead)
  else if offset = MIO_INT_MASK1 then (s, .intMask (byteswap32 s.int_mask))
  else if offset = MIO_INT_LEVELS1 then (s, .intLevels (byteswap32 s.int_levels))
  else if offset = MIO_INT_EVENTS1 then (s, .intEvents (byteswap32 s.int_events))
  else (s, .unmappedRead)

/-- Embedding of `GrandCentral::write(reg_start, offset, value, size)`.  Returns the
updated state and the routed outcome.  `value` is a `uint32_t`
parameter, truncated at entry. -/
def gc_write (s : GCState) (offset value size : Nat) : GCState × GCWrite :=
  let value := value % 4294967296
  if offset &&& 0x10000 ≠ 0 then -- Device register space
    match (offset >>> 12) &&& 0xF with
    | 0x0 => (s, .scsi ((offset >>> 4) &&& 0xF) value)
    | 0x1 => (s, .mace ((offset >>> 4) &&& 0x1F) value)
    | 0x2 => -- ESCC compatible addressing, falls through to MacRISC
      if (offset &&& 0xFF) < 16 then (s, .escc ((offset >>> 1) &&& 0xF) value)
      else (s, .escc ((offset >>> 4) &&& 0xF) value)
    | 0x3 => (s, .escc ((offset >>> 4) &&& 0xF) value)
    | 0x4 => (s, .awacs (offset &&& 0xFF) value size)
    | 0x6 => (s, .viacuda ((offset >>> 9) &&& 0xF) value)
    | 0x7 => (s, .viacuda ((offset >>> 9) &&& 0xF) value)
    | 0xD => ({ s with nvram_addr_hi :=
                  if size = 4 then byteswap32 value
                  else if size = 2 then byteswap16 value
                  else value }, .nvramHi)
    | 0xF => (s, .nvramData
        (((s.nvram_addr_hi <<< 5) + ((offset >>> 4) &&& 0x1F)) % 4294967296) value)
    | _ => (s, .unmappedWrite)
  else if offset &&& 0x8000 ≠ 0 then -- DMA register space
    match (offset >>> 12) &&& 0xF with
    | 0x8 => (s, .sndOutDma (offset &&& 0xFF) value size)
    | _ => (s, .unmappedWrite)
  else if offset = MIO_INT_MASK1 then
    ({ s with int_mask := byteswap32 value }, .intMaskW)
  else if offset = MIO_INT_CLEAR1 then
    (if value &&& MACIO_INT_CLR ≠ 0 then { s with int_events := 0 }
     else { s with int_events := s.int_events &&& byteswap32 value }, .intClearW)
  else (s, .unmappedWrite)

/-- Routing triple of `GrandCentral::read` as a pure function of the
offset alone (the refinement target of the spec's routing-determinism
property). -/
def gc_read_route (offset : Nat) : GCRoute :=
  if offset &&& 0x10000 ≠ 0 then
    match (offset >>> 12) &&& 0xF with
    | 0x0 => .scsi ((offset >>> 4) &&& 0xF)
    | 0x1 => .mace ((offset >>> 4) &&& 0x1F)
    | 0x2 =>
      if (offset &&& 0xFF) < 16 then .escc ((offset >>> 1) &&& 0xF)
      else .escc ((offset >>> 4) &&& 0xF)
    | 0x3 => .escc ((offset >>> 4) &&& 0xF)
    | 0x4 => .awacs (offset &&& 0xFF)
    | 0x6 => .viacuda ((offset >>> 9) &&& 0xF)
    | 0x7 => .viacuda ((offset >>> 9) &&& 0xF)
    | 0xA => .board
    | 0xF => .nvramData ((offset >>> 4) &&& 0x1F)
    | _ => .unmapped
  else if offset &&& 0x8000 ≠ 0 then
    match (offset >>> 12) &&& 0xF with
    | 0x8 => .sndOutDma (offset &&& 0xFF)
    | _ => .unmapped
  else if offset = MIO_INT_MASK1 then .intMask
  else if offset = MIO_INT_LEVELS1 then .intLevels
  else if offset = MIO_INT_EVENTS1 then .intEvents
  else .unmapped

/-- Routing triple of `GrandCentral::write` as a pure function of the
offset alone. -/
def gc_write_route (offset : Nat) : GCRoute :=
  if offset &&& 0x10000 ≠ 0 then
    match (offset >>> 12) &&& 0xF with
    | 0x0 => .scsi ((offset >>> 4) &&& 0xF)
    | 0x1 => .mace ((offset >>> 4) &&& 0x1F)
    | 0x2 =>
      if (offset &&& 0xFF) < 16 then .escc ((offset >>> 1) &&& 0xF)
      else .escc ((offset >>> 4) &&& 0xF)
    | 0x3 => .escc ((offset >>> 4) &&& 0xF)
    | 0x4 => .awacs (offset &&& 0xFF)
    | 0x6 => .viacuda ((offset >>> 9) &&& 0xF)
    | 0x7 => .viacuda ((offset >>> 9) &&& 0xF)
    | 0xD => .nvramHi
    | 0xF => .nvramData ((offset >>> 4) &&& 0x1F)
    | _ => .unmapped
  else if offset &&& 0x8000 ≠ 0 then
    match (offset >>> 12) &&& 0xF with
    | 0x8 => .sndOutDma (offset &&& 0xFF)
    | _ => .unmapped
  else if offset = MIO_INT_MASK1 then .intMask
  else if offset = MIO_INT_CLEAR1 then .intClear
  else .unmapped

/-- Embedding of `GrandCentral::ack_int(irq_id, irq_line_state)`.  In legacy 68k
emulation mode it latches and re-masks the event, updates the level
bit, and reports (second component) whether a CPU interrupt is
signalled (`ppc_ext_int`).  In native mode the C++ code aborts
(`ABORT_F`), modelled as `none`. -/
def ack_int (s : GCState) (irq_id irq_line_state : Nat) :
    Option (GCState × Bool) :=
  let irq := irq_id % 4294967296
  if s.int_mask &&& MACIO_INT_MODE ≠ 0 then
    let events := (s.int_events ||| irq) &&& s.int_mask
    let levels :=
      if irq_line_state ≠ 0 then s.int_levels ||| irq
      else s.int_levels &&& (0xFFFFFFFF ^^^ irq)
    some ({ s with int_events := events, int_levels := levels }, events != 0)
  else none

/-- Modelled from the spec: the symbolic interrupt source identifiers
(`IntSrc`, an enumeration declared in a header outside the snapshot).
The three sources this controller maps are kept symbolic; `other`
stands for every further member of the closed enumeration. -/
inductive IntSrc where
  | VIA_CUDA
  | SCSI1
  | SWIM3
  | other (id : Nat)
deriving DecidableEq

/-- Embedding of `GrandCentral::register_dev_int(src_id)`: bit position for the known
sources; every other source id hits `ABORT_F`, modelled as `none`. -/
def register_dev_int : IntSrc → Option Nat
  | .VIA_CUDA => some (1 <<< 18)
  | .SCSI1 => some (1 <<< 12)
  | .SWIM3 => some (1 <<< 19)
  | .other _ => none

/-- Embedding of `GrandCentral::register_dma_int(src_id)`: unconditionally
`ABORT_F`, modelled as `none` for every input. -/
def register_dma_int : IntSrc → Option Nat := fun _ => none

/-- Modelled from the spec: the initial interrupt state (all registers
clear; the base-class initializers are outside the snapshot). -/
def gcInit : GCState := ⟨0, 0, 0, 0⟩

/-- One interrupt-aggregator operation of the spec's §8.3 trace
vocabulary: `acknowledge`, `set_mask` (a write to `MIO_INT_MASK1`) and
`clear_events` (a write to `MIO_INT_CLEAR1`). -/
inductive GCOp where
  | ack (irq_id irq_line_state : Nat)
  | setMask (v : Nat)
  | clearEvents (v : Nat)

/-- Run a sequence of interrupt-aggregator operations; `none` once an
operation aborts (acknowledge in native mode). -/
def runOps : GCState → List GCOp → Option GCState
  | s, [] => some s
  | s, GCOp.ack irq lvl :: rest =>
    match ack_int s irq lvl with
    | some (s2, _) => runOps s2 rest
    | none => none
  | s, GCOp.setMask v :: rest => runOps (gc_write s MIO_INT_MASK1 v 4).1 rest
  | s, GCOp.clearEvents v :: rest => runOps (gc_write s MIO_INT_CLEAR1 v 4).1 rest

/-! ## Bit-manipulation helper lemmas -/

theorem and_shl (v m k : Nat) : v &&& (m <<< k) = ((v >>> k) &&& m) <<< k := by
  apply Nat.eq_of_testBit_eq
  intro i
  simp only [Nat.testBit_and, Nat.testBit_shiftLeft, Nat.testBit_shiftRight]
  by_cases h : k ≤ i
  · have hk : k + (i - k) = i := by omega
    simp [ge_iff_le, h, hk, Bool.and_comm, Bool.and_left_comm]
  · simp [ge_iff_le, h]

theorem and_chunk (v n k : Nat) :
    v &&& ((2 ^ n - 1) <<< k) = 2 ^ k * (v / 2 ^ k % 2 ^ n) := by
  rw [and_shl, Nat.and_pow_two_sub_one_eq_mod, Nat.shiftLeft_eq,
      Nat.shiftRight_eq_div_pow, Nat.mul_comm]

theorem or_chunk (a : Nat) {b k : Nat} (hb : b < 2 ^ k) :
    2 ^ k * a ||| b = 2 ^ k * a + b :=
  (Nat.mul_add_lt_is_or hb a).symm

theorem or_chunk_mul (a : Nat) {b k : Nat} (hb : b < 2 ^ k) :
    a * 2 ^ k ||| b = a * 2 ^ k + b := by
  rw [Nat.mul_comm a (2 ^ k)]; exact or_chunk a hb

/-! ### Byte-level characterizations of the modelled helpers -/

theorem byteswap32_bytes (b3 b2 b1 b0 : Nat)
    (h3 : b3 < 2 ^ 8) (h2 : b2 < 2 ^ 8) (h1 : b1 < 2 ^ 8) (h0 : b0 < 2 ^ 8) :
    byteswap32 (b3 * 2 ^ 24 + b2 * 2 ^ 16 + b1 * 2 ^ 8 + b0) =
      b0 * 2 ^ 24 + b1 * 2 ^ 16 + b2 * 2 ^ 8 + b3 := by
  simp only [byteswap32]; omega

theorem rotl32_bytes8 (b3 b2 b1 b0 : Nat)
    (h3 : b3 < 2 ^ 8) (h2 : b2 < 2 ^ 8) (h1 : b1 < 2 ^ 8) (h0 : b0 < 2 ^ 8) :
    rotl32 (b3 * 2 ^ 24 + b2 * 2 ^ 16 + b1 * 2 ^ 8 + b0) 8 =
      b2 * 2 ^ 24 + b1 * 2 ^ 16 + b0 * 2 ^ 8 + b3 := by
  simp only [rotl32]; omega

theorem rotl32_bytes16 (b3 b2 b1 b0 : Nat)
    (h3 : b3 < 2 ^ 8) (h2 : b2 < 2 ^ 8) (h1 : b1 < 2 ^ 8) (h0 : b0 < 2 ^ 8) :
    rotl32 (b3 * 2 ^ 24 + b2 * 2 ^ 16 + b1 * 2 ^ 8 + b0) 16 =
      b1 * 2 ^ 24 + b0 * 2 ^ 16 + b3 * 2 ^ 8 + b2 := by
  simp only [rotl32]; omega

theorem rotr32_bytes8 (b3 b2 b1 b0 : Nat)
    (h3 : b3 < 2 ^ 8) (h2 : b2 < 2 ^ 8) (h1 : b1 < 2 ^ 8) (h0 : b0 < 2 ^ 8) :
    rotr32 (b3 * 2 ^ 24 + b2 * 2 ^ 16 + b1 * 2 ^ 8 + b0) 8 =
      b0 * 2 ^ 24 + b3 * 2 ^ 16 + b2 * 2 ^ 8 + b1 := by
  simp only [rotr32]; omega

theorem byteswap16_bytes (b1 b0 : Nat) (h1 : b1 < 2 ^ 8) (h0 : b0 < 2 ^ 8) :
    byteswap16 (b1 * 2 ^ 8 + b0) = b0 * 2 ^ 8 + b1 := by
  simp only [byteswap16]; omega

/-! ### Round-trip lemmas, one per handled (size, offset) pair -/

theorem rt_b0 (v : Nat) (hv : v < 4294967296) :
    pci_conv_wr_data v (pci_conv_rd_data v ⟨1, 0, PCI_CONFIG_READ⟩)
      ⟨1, 0, PCI_CONFIG_WRITE⟩ = v := by
  show (v &&& 0xFFFFFF00) ||| ((v &&& 0xFF) &&& 0xFF) = v
  simp only [show (0xFFFFFF00 : Nat) = (2 ^ 24 - 1) <<< 8 by norm_num [Nat.shiftLeft_eq],
             show (0xFF : Nat) = 2 ^ 8 - 1 by norm_num,
             and_chunk, Nat.and_pow_two_sub_one_eq_mod]
  rw [or_chunk _ (Nat.mod_lt _ (by norm_num))]
  omega

theorem rt_b1 (v : Nat) (hv : v < 4294967296) :
    pci_conv_wr_data v (pci_conv_rd_data v ⟨1, 1, PCI_CONFIG_READ⟩)
      ⟨1, 1, PCI_CONFIG_WRITE⟩ = v := by
  show (v &&& 0xFFFF00FF) ||| ((((v >>> 8) &&& 0xFF) &&& 0xFF) <<< 8) = v
  simp only [show (0xFFFF00FF : Nat) = 0xFFFF0000 ||| 0xFF by decide,
             Nat.and_or_distrib_left,
             show (0xFFFF0000 : Nat) = (2 ^ 16 - 1) <<< 16 by norm_num [Nat.shiftLeft_eq],
             show (0xFF : Nat) = 2 ^ 8 - 1 by norm_num,
             and_chunk, Nat.and_pow_two_sub_one_eq_mod]
  simp only [Nat.shiftLeft_eq, Nat.shiftRight_eq_div_pow]
  rw [Nat.or_assoc, Nat.or_comm (v % 2 ^ 8), or_chunk_mul _ (Nat.mod_lt _ (by norm_num)),
      or_chunk _ (by omega)]
  omega

theorem rt_b2 (v : Nat) (hv : v < 4294967296) :
    pci_conv_wr_data v (pci_conv_rd_data v ⟨1, 2, PCI_CONFIG_READ⟩)
      ⟨1, 2, PCI_CONFIG_WRITE⟩ = v := by
  show (v &&& 0xFF00FFFF) ||| ((((v >>> 16) &&& 0xFF) &&& 0xFF) <<< 16) = v
  simp only [show (0xFF00FFFF : Nat) = 0xFF000000 ||| 0xFFFF by decide,
             Nat.and_or_distrib_left,
             show (0xFF000000 : Nat) = (2 ^ 8 - 1) <<< 24 by norm_num [Nat.shiftLeft_eq],
             show (0xFFFF : Nat) = 2 ^ 16 - 1 by norm_num,
             show (0xFF : Nat) = 2 ^ 8 - 1 by norm_num,
             and_chunk, Nat.and_pow_two_sub_one_eq_mod]
  simp only [Nat.shiftLeft_eq, Nat.shiftRight_eq_div_pow]
  rw [Nat.or_assoc, Nat.or_comm (v % 2 ^ 16), or_chunk_mul _ (Nat.mod_lt _ (by norm_num)),
      or_chunk _ (by omega)]
  omega

theorem rt_b3 (v : Nat) (hv : v < 4294967296) :
    pci_conv_wr_data v (pci_conv_rd_data v ⟨1, 3, PCI_CONFIG_READ⟩)
      ⟨1, 3, PCI_CONFIG_WRITE⟩ = v := by
  show (v &&& 0x00FFFFFF) ||| ((((v >>> 24) &&& 0xFF) &&& 0xFF) <<< 24) = v
  simp only [show (0x00FFFFFF : Nat) = 2 ^ 24 - 1 by norm_num,
             show (0xFF : Nat) = 2 ^ 8 - 1 by norm_num,
             Nat.and_pow_two_sub_one_eq_mod]
  simp only [Nat.shiftLeft_eq, Nat.shiftRight_eq_div_pow]
  rw [Nat.or_comm, or_chunk_mul _ (Nat.mod_lt _ (by norm_num))]
  omega

theorem rt_w0 (v : Nat) (hv : v < 4294967296) :
    pci_conv_wr_data v (pci_conv_rd_data v ⟨2, 0, PCI_CONFIG_READ⟩)
      ⟨2, 0, PCI_CONFIG_WRITE⟩ = v := by
  show (v &&& 0xFFFF0000) ||| byteswap16 (byteswap16 v) = v
  obtain ⟨b1, b0, hb1, hb0, e1, hb⟩ :
      ∃ b1 b0, b1 < 2 ^ 8 ∧ b0 < 2 ^ 8 ∧ byteswap16 v = b0 * 2 ^ 8 + b1 ∧
        b1 * 2 ^ 8 + b0 = v % 2 ^ 16 :=
    ⟨v / 2 ^ 8 % 2 ^ 8, v % 2 ^ 8, by omega, by omega, rfl, by omega⟩
  rw [e1, byteswap16_bytes b0 b1 hb0 hb1]
  simp only [show (0xFFFF0000 : Nat) = (2 ^ 16 - 1) <<< 16 by norm_num [Nat.shiftLeft_eq],
             and_chunk]
  rw [or_chunk _ (by omega)]
  omega

theorem rt_w1 (v : Nat) (hv : v < 4294967296) :
    pci_conv_wr_data v (pci_conv_rd_data v ⟨2, 1, PCI_CONFIG_READ⟩)
      ⟨2, 1, PCI_CONFIG_WRITE⟩ = v := by
  show (v &&& 0xFF0000FF) ||| (byteswap16 (byteswap16 ((v >>> 8) &&& 0xFFFF)) <<< 8) = v
  have e0 : (v >>> 8) &&& 0xFFFF = v / 2 ^ 16 % 2 ^ 8 * 2 ^ 8 + v / 2 ^ 8 % 2 ^ 8 := by
    rw [show (0xFFFF : Nat) = 2 ^ 16 - 1 by norm_num, Nat.and_pow_two_sub_one_eq_mod,
        Nat.shiftRight_eq_div_pow]
    omega
  rw [e0, byteswap16_bytes _ _ (by omega) (by omega),
      byteswap16_bytes _ _ (by omega) (by omega)]
  simp only [show (0xFF0000FF : Nat) = 0xFF000000 ||| 0xFF by decide,
             Nat.and_or_distrib_left,
             show (0xFF000000 : Nat) = (2 ^ 8 - 1) <<< 24 by norm_num [Nat.shiftLeft_eq],
             show (0xFF : Nat) = 2 ^ 8 - 1 by norm_num,
             and_chunk, Nat.and_pow_two_sub_one_eq_mod]
  simp only [Nat.shiftLeft_eq]
  rw [Nat.or_assoc, Nat.or_comm (v % 2 ^ 8), or_chunk_mul _ (by omega), or_chunk _ (by omega)]
  omega

theorem rt_w2 (v : Nat) (hv : v < 4294967296) :
    pci_conv_wr_data v (pci_conv_rd_data v ⟨2, 2, PCI_CONFIG_READ⟩)
      ⟨2, 2, PCI_CONFIG_WRITE⟩ = v := by
  show (v &&& 0x0000FFFF) ||| (byteswap16 (byteswap16 ((v >>> 16) &&& 0xFFFF)) <<< 16) = v
  have e0 : (v >>> 16) &&& 0xFFFF = v / 2 ^ 24 % 2 ^ 8 * 2 ^ 8 + v / 2 ^ 16 % 2 ^ 8 := by
    rw [show (0xFFFF : Nat) = 2 ^ 16 - 1 by norm_num, Nat.and_pow_two_sub_one_eq_mod,
        Nat.shiftRight_eq_div_pow]
    omega
  rw [e0, byteswap16_bytes _ _ (by omega) (by omega),
      byteswap16_bytes _ _ (by omega) (by omega)]
  simp only [show (0x0000FFFF : Nat) = 2 ^ 16 - 1 by norm_num,
             Nat.and_pow_two_sub_one_eq_mod]
  simp only [Nat.shiftLeft_eq]
  rw [Nat.or_comm, or_chunk_mul _ (Nat.mod_lt _ (by norm_num))]
  omega

theorem rt_w3 (v : Nat) (hv : v < 4294967296) :
    pci_conv_wr_data v (pci_conv_rd_data v ⟨2, 3, PCI_CONFIG_READ⟩)
      ⟨2, 3, PCI_CONFIG_WRITE⟩ = v := by
  show (v &&& 0x00FFFF00) |||
      (((((v >>> 16) &&& 0xFF00) ||| (v &&& 0xFF)) &&& 0xFF00) <<< 16) |||
      ((((v >>> 16) &&& 0xFF00) ||| (v &&& 0xFF)) &&& 0xFF) = v
  have eR : ((v >>> 16) &&& 0xFF00) ||| (v &&& 0xFF) =
      v / 2 ^ 24 % 2 ^ 8 * 2 ^ 8 + v % 2 ^ 8 := by
    rw [show (0xFF00 : Nat) = (2 ^ 8 - 1) <<< 8 by norm_num [Nat.shiftLeft_eq], and_chunk,
        show (0xFF : Nat) = 2 ^ 8 - 1 by norm_num, Nat.and_pow_two_sub_one_eq_mod,
        Nat.shiftRight_eq_div_pow]
    rw [or_chunk _ (Nat.mod_lt _ (by norm_num))]
    omega
  rw [eR]
  have e1 : (v / 2 ^ 24 % 2 ^ 8 * 2 ^ 8 + v % 2 ^ 8) &&& 0xFF00 =
      v / 2 ^ 24 % 2 ^ 8 * 2 ^ 8 := by
    rw [show (0xFF00 : Nat) = (2 ^ 8 - 1) <<< 8 by norm_num [Nat.shiftLeft_eq], and_chunk]
    omega
  have e2 : (v / 2 ^ 24 % 2 ^ 8 * 2 ^ 8 + v % 2 ^ 8) &&& 0xFF = v % 2 ^ 8 := by
    rw [show (0xFF : Nat) = 2 ^ 8 - 1 by norm_num, Nat.and_pow_two_sub_one_eq_mod]
    omega
  rw [e1, e2]
  simp only [show (0x00FFFF00 : Nat) = (2 ^ 16 - 1) <<< 8 by norm_num [Nat.shiftLeft_eq],
             and_chunk]
  simp only [Nat.shiftLeft_eq]
  rw [Nat.or_comm (2 ^ 8 * (v / 2 ^ 8 % 2 ^ 16)),
      show v / 2 ^ 24 % 2 ^ 8 * 2 ^ 8 * 2 ^ 16 = 2 ^ 24 * (v / 2 ^ 24 % 2 ^ 8) by ring,
      or_chunk _ (by omega),
      show 2 ^ 24 * (v / 2 ^ 24 % 2 ^ 8) + 2 ^ 8 * (v / 2 ^ 8 % 2 ^ 16) =
        2 ^ 8 * (2 ^ 16 * (v / 2 ^ 24 % 2 ^ 8) + v / 2 ^ 8 % 2 ^ 16) by ring,
      or_chunk _ (Nat.mod_lt _ (by norm_num))]
  omega

theorem rt_d0 (v : Nat) (hv : v < 4294967296) :
    pci_conv_wr_data v (pci_conv_rd_data v ⟨4, 0, PCI_CONFIG_READ⟩)
      ⟨4, 0, PCI_CONFIG_WRITE⟩ = v := by
  show byteswap32 (byteswap32 v) = v
  obtain ⟨b3, b2, b1, b0, h3, h2, h1, h0, rfl⟩ :
      ∃ b3 b2 b1 b0, b3 < 2 ^ 8 ∧ b2 < 2 ^ 8 ∧ b1 < 2 ^ 8 ∧ b0 < 2 ^ 8 ∧
        v = b3 * 2 ^ 24 + b2 * 2 ^ 16 + b1 * 2 ^ 8 + b0 :=
    ⟨v / 2 ^ 24 % 2 ^ 8, v / 2 ^ 16 % 2 ^ 8, v / 2 ^ 8 % 2 ^ 8, v % 2 ^ 8,
     by omega, by omega, by omega, by omega, by omega⟩
  rw [byteswap32_bytes _ _ _ _ h3 h2 h1 h0, byteswap32_bytes _ _ _ _ h0 h1 h2 h3]

theorem rt_d1 (v : Nat) (hv : v < 4294967296) :
    pci_conv_wr_data v (pci_conv_rd_data v ⟨4, 1, PCI_CONFIG_READ⟩)
      ⟨4, 1, PCI_CONFIG_WRITE⟩ = v := by
  show rotl32 (byteswap32 (rotl32 (byteswap32 v) 8)) 8 = v
  obtain ⟨b3, b2, b1, b0, h3, h2, h1, h0, rfl⟩ :
      ∃ b3 b2 b1 b0, b3 < 2 ^ 8 ∧ b2 < 2 ^ 8 ∧ b1 < 2 ^ 8 ∧ b0 < 2 ^ 8 ∧
        v = b3 * 2 ^ 24 + b2 * 2 ^ 16 + b1 * 2 ^ 8 + b0 :=
    ⟨v / 2 ^ 24 % 2 ^ 8, v / 2 ^ 16 % 2 ^ 8, v / 2 ^ 8 % 2 ^ 8, v % 2 ^ 8,
     by omega, by omega, by omega, by omega, by omega⟩
  rw [byteswap32_bytes _ _ _ _ h3 h2 h1 h0, rotl32_bytes8 _ _ _ _ h0 h1 h2 h3,
      byteswap32_bytes _ _ _ _ h1 h2 h3 h0, rotl32_bytes8 _ _ _ _ h0 h3 h2 h1]

theorem rt_d2 (v : Nat) (hv : v < 4294967296) :
    pci_conv_wr_data v (pci_conv_rd_data v ⟨4, 2, PCI_CONFIG_READ⟩)
      ⟨4, 2, PCI_CONFIG_WRITE⟩ = v := by
  show rotl32 (byteswap32 (rotl32 (byteswap32 v) 16)) 16 = v
  obtain ⟨b3, b2, b1, b0, h3, h2, h1, h0, rfl⟩ :
      ∃ b3 b2 b1 b0, b3 < 2 ^ 8 ∧ b2 < 2 ^ 8 ∧ b1 < 2 ^ 8 ∧ b0 < 2 ^ 8 ∧
        v = b3 * 2 ^ 24 + b2 * 2 ^ 16 + b1 * 2 ^ 8 + b0 :=
    ⟨v / 2 ^ 24 % 2 ^ 8, v / 2 ^ 16 % 2 ^ 8, v / 2 ^ 8 % 2 ^ 8, v % 2 ^ 8,
     by omega, by omega, by omega, by omega, by omega⟩
  rw [byteswap32_bytes _ _ _ _ h3 h2 h1 h0, rotl32_bytes16 _ _ _ _ h0 h1 h2 h3,
      byteswap32_bytes _ _ _ _ h2 h3 h0 h1, rotl32_bytes16 _ _ _ _ h1 h0 h3 h2]

theorem rt_d3 (v : Nat) (hv : v < 4294967296) :
    pci_conv_wr_data v (pci_conv_rd_data v ⟨4, 3, PCI_CONFIG_READ⟩)
      ⟨4, 3, PCI_CONFIG_WRITE⟩ = v := by
  show rotr32 (byteswap32 (rotr32 (byteswap32 v) 8)) 8 = v
  obtain ⟨b3, b2, b1, b0, h3, h2, h1, h0, rfl⟩ :
      ∃ b3 b2 b1 b0, b3 < 2 ^ 8 ∧ b2 < 2 ^ 8 ∧ b1 < 2 ^ 8 ∧ b0 < 2 ^ 8 ∧
        v = b3 * 2 ^ 24 + b2 * 2 ^ 16 + b1 * 2 ^ 8 + b0 :=
    ⟨v / 2 ^ 24 % 2 ^ 8, v / 2 ^ 16 % 2 ^ 8, v / 2 ^ 8 % 2 ^ 8, v % 2 ^ 8,
     by omega, by omega, by omega, by omega, by omega⟩
  rw [byteswap32_bytes _ _ _ _ h3 h2 h1 h0, rotr32_bytes8 _ _ _ _ h0 h1 h2 h3,
      byteswap32_bytes _ _ _ _ h3 h0 h1 h2, rotr32_bytes8 _ _ _ _ h2 h1 h0 h3]

/-! ## Further helper lemmas -/

theorem byteswap32_byteswap32 (v : Nat) (hv : v < 4294967296) :
    byteswap32 (byteswap32 v) = v := by
  obtain ⟨b3, b2, b1, b0, h3, h2, h1, h0, rfl⟩ :
      ∃ b3 b2 b1 b0, b3 < 2 ^ 8 ∧ b2 < 2 ^ 8 ∧ b1 < 2 ^ 8 ∧ b0 < 2 ^ 8 ∧
        v = b3 * 2 ^ 24 + b2 * 2 ^ 16 + b1 * 2 ^ 8 + b0 :=
    ⟨v / 2 ^ 24 % 2 ^ 8, v / 2 ^ 16 % 2 ^ 8, v / 2 ^ 8 % 2 ^ 8, v % 2 ^ 8,
     by omega, by omega, by omega, by omega, by omega⟩
  rw [byteswap32_bytes _ _ _ _ h3 h2 h1 h0, byteswap32_bytes _ _ _ _ h0 h1 h2 h3]

theorem byteswap32_lt (v : Nat) : byteswap32 v < 4294967296 := by
  simp only [byteswap32]; omega

theorem land_compl32 (x m : Nat) (hm : m < 4294967296) :
    (x &&& m) &&& (0xFFFFFFFF ^^^ m) = 0 := by
  apply Nat.eq_of_testBit_eq
  intro i
  simp only [Nat.testBit_and, Nat.testBit_xor, Nat.zero_testBit]
  cases hb : m.testBit i
  · simp
  · have hi : i < 32 := by
      by_contra hge
      have hf : m.testBit i = false :=
        Nat.testBit_lt_two_pow
          (lt_of_lt_of_le (by omega : m < 2 ^ 32)
            (Nat.pow_le_pow_right (by norm_num) (by omega)))
      rw [hf] at hb
      exact Bool.noConfusion hb
    have h1 : Nat.testBit 0xFFFFFFFF i = true := by
      rw [show (0xFFFFFFFF : Nat) = 2 ^ 32 - 1 by norm_num,
          Nat.testBit_two_pow_sub_one]
      simp [hi]
    simp [hb, h1]

theorem gc_read_mask1 (s : GCState) (size : Nat) :
    gc_read s MIO_INT_MASK1 size = (s, .intMask (byteswap32 s.int_mask)) := rfl

theorem gc_write_mask1 (s : GCState) (v size : Nat) :
    gc_write s MIO_INT_MASK1 v size =
      ({ s with int_mask := byteswap32 (v % 4294967296) }, .intMaskW) := rfl

theorem gc_write_clear1 (s : GCState) (v size : Nat) :
    gc_write s MIO_INT_CLEAR1 v size =
      (if v % 4294967296 &&& MACIO_INT_CLR ≠ 0 then { s with int_events := 0 }
       else { s with int_events := s.int_events &&& byteswap32 (v % 4294967296) },
       .intClearW) := rfl

theorem ack_int_mask (s s2 : GCState) (irq lvl : Nat) (sig : Bool)
    (h : ack_int s irq lvl = some (s2, sig)) :
    s2.int_mask = s.int_mask ∧
    s2.int_events = (s.int_events ||| irq % 4294967296) &&& s.int_mask := by
  unfold ack_int at h
  split at h
  · simp only [Option.some.injEq, Prod.mk.injEq] at h
    obtain ⟨h1, -⟩ := h
    subst h1
    exact ⟨rfl, rfl⟩
  · exact Option.noConfusion h

theorem runOps_mask_lt (ops : List GCOp) (s s2 : GCState)
    (hs : s.int_mask < 4294967296) (h : runOps s ops = some s2) :
    s2.int_mask < 4294967296 := by
  induction ops generalizing s with
  | nil =>
    unfold runOps at h
    simp only [Option.some.injEq] at h
    subst h
    exact hs
  | cons op rest ih =>
    cases op with
    | ack irq lvl =>
      unfold runOps at h
      cases hack : ack_int s irq lvl with
      | none => rw [hack] at h; exact Option.noConfusion h
      | some p =>
        obtain ⟨s3, sig⟩ := p
        rw [hack] at h
        have hm : s3.int_mask = s.int_mask := (ack_int_mask s s3 irq lvl sig hack).1
        exact ih s3 (by rw [hm]; exact hs) h
    | setMask v =>
      unfold runOps at h
      exact ih _ (byteswap32_lt _) h
    | clearEvents v =>
      unfold runOps at h
      refine ih _ ?_ h
      have hcl : (gc_write s MIO_INT_CLEAR1 v 4).1.int_mask = s.int_mask := by
        rw [gc_write_clear1]
        split <;> rfl
      rw [hcl]; exact hs

/-! ## Claim theorems -/

/-- C1: byte-lane codec round trip.  For every size in {1,2,4}, byte
offset in {0,1,2,3} and 32-bit backing value `v`,
`pci_conv_wr_data(v, pci_conv_rd_data(v, {s,o,read}), {s,o,write})`
equals `v`: the addressed lanes are reproduced and all other bytes
are unchanged. -/
theorem c1_byte_lane_roundtrip (sz off v : Nat)
    (hs : sz = 1 ∨ sz = 2 ∨ sz = 4) (ho : off < 4) (hv : v < 4294967296) :
    pci_conv_wr_data v (pci_conv_rd_data v ⟨sz, off, PCI_CONFIG_READ⟩)
      ⟨sz, off, PCI_CONFIG_WRITE⟩ = v := by
  rcases hs with rfl | rfl | rfl <;> interval_cases off
  exacts [rt_b0 v hv, rt_b1 v hv, rt_b2 v hv, rt_b3 v hv,
          rt_w0 v hv, rt_w1 v hv, rt_w2 v hv, rt_w3 v hv,
          rt_d0 v hv, rt_d1 v hv, rt_d2 v hv, rt_d3 v hv]

/-- Witness for C1 at size 2, offset 3, value `0xAABBCCDD`. -/
theorem c1_byte_lane_roundtrip_witness :
    pci_conv_wr_data 0xAABBCCDD
      (pci_conv_rd_data 0xAABBCCDD ⟨2, 3, PCI_CONFIG_READ⟩)
      ⟨2, 3, PCI_CONFIG_WRITE⟩ = 0xAABBCCDD :=
  c1_byte_lane_roundtrip 2 3 0xAABBCCDD (Or.inr (Or.inl rfl)) (by decide) (by decide)

/-- C2 counterexample: a 4-byte read at offset 1 of backing value
`0xAABBCCDD` does not return `0xBBCCDDAA` as the claim states; the
code computes `ROTL_32(BYTESWAP_32(v), 8) = 0xCCBBAADD`. -/
theorem c2_wrap_counterexample :
    pci_conv_rd_data 0xAABBCCDD ⟨4, 1, PCI_CONFIG_READ⟩ ≠ 0xBBCCDDAA := by decide

/-- C2 (amended): for backing value `0xAABBCCDD`, a 2-byte read at
offset 3 returns `0xAADD` (byte 3 combined with wrapped byte 0), and a
4-byte read at offset 1 returns `0xCCBBAADD`, the bytes at offsets
1,2,3,0 in big-endian order — the left-rotate-by-8 of the byte-swapped
value `0xDDCCBBAA`, not of `0xAABBCCDD` itself. -/
theorem c2_wrap_example :
    pci_conv_rd_data 0xAABBCCDD ⟨2, 3, PCI_CONFIG_READ⟩ = 0xAADD ∧
    pci_conv_rd_data 0xAABBCCDD ⟨4, 1, PCI_CONFIG_READ⟩ = 0xCCBBAADD := by decide

/-- C7 counterexample: the (size, offset) combination (1, 4) lies
outside { (1,0..3), (2,0..3), (4,0..3) } (its offset is not below 4),
yet its discriminant `1 << 2 | 4 = 4` collides with the handled case
(1,0), so neither function returns the all-ones sentinel there. -/
theorem c7_sentinel_counterexample :
    ((1 : Nat) = 1 ∨ (1 : Nat) = 2 ∨ (1 : Nat) = 4) ∧ ¬ (4 : Nat) < 4 ∧
    pci_conv_rd_data 0 ⟨1, 4, PCI_CONFIG_READ⟩ ≠ 0xFFFFFFFF ∧
    pci_conv_wr_data 0 0 ⟨1, 4, PCI_CONFIG_WRITE⟩ ≠ 0xFFFFFFFF := by decide

/-- C7 (amended): both codec functions are total, and for every
(size, offset) whose discriminant `size << 2 | offset` lies outside
the handled set {0x04..0x0B, 0x10..0x13} they return the all-ones
sentinel `0xFFFFFFFF` instead of failing.  (Quantified over the
discriminant because distinct out-of-range combinations such as (1,4)
can collide with handled discriminants.) -/
theorem c7_invalid_sentinel (v1 v2 : Nat) (d : AccessDetails)
    (h : d.size <<< 2 ||| d.offset < 0x04 ∨
         (0x0B < d.size <<< 2 ||| d.offset ∧ d.size <<< 2 ||| d.offset < 0x10) ∨
         0x13 < d.size <<< 2 ||| d.offset) :
    pci_conv_rd_data v1 d = 0xFFFFFFFF ∧ pci_conv_wr_data v1 v2 d = 0xFFFFFFFF := by
  constructor
  · unfold pci_conv_rd_data
    split <;> omega
  · unfold pci_conv_wr_data
    split <;> omega

/-- Witness for C7 at size 3, offset 0 (discriminant 0x0C). -/
theorem c7_invalid_sentinel_witness :
    pci_conv_rd_data 5 ⟨3, 0, PCI_CONFIG_READ⟩ = 0xFFFFFFFF ∧
    pci_conv_wr_data 5 7 ⟨3, 0, PCI_CONFIG_READ⟩ = 0xFFFFFFFF :=
  c7_invalid_sentinel 5 7 ⟨3, 0, PCI_CONFIG_READ⟩ (by decide)

/-- C3: re-masking invariant.  For every sequence of acknowledge /
set-mask / clear-events operations from the initial interrupt state,
immediately after any successful acknowledge call (which only succeeds
in legacy emulation mode, `int_mask & MACIO_INT_MODE` set) the state
satisfies `events & ~mask == 0`. -/
theorem c3_remask_invariant (ops : List GCOp) (s s2 : GCState) (sig : Bool)
    (irq lvl : Nat)
    (hrun : runOps gcInit ops = some s)
    (hack : ack_int s irq lvl = some (s2, sig)) :
    s2.int_events &&& (0xFFFFFFFF ^^^ s2.int_mask) = 0 := by
  have hm : s.int_mask < 4294967296 :=
    runOps_mask_lt ops gcInit s (by decide) hrun
  obtain ⟨h1, h2⟩ := ack_int_mask s s2 irq lvl sig hack
  rw [h1, h2]
  exact land_compl32 _ _ hm

/-- Witness for C3: enable legacy mode via a mask write of `0x80`
(stored byte-swapped as `0x80000000`), then acknowledge source bit 4. -/
theorem c3_remask_invariant_witness :
    (⟨0x80000000, 4, 0, 0⟩ : GCState).int_events &&&
      (0xFFFFFFFF ^^^ (⟨0x80000000, 4, 0, 0⟩ : GCState).int_mask) = 0 :=
  c3_remask_invariant [GCOp.setMask 0x80] ⟨0x80000000, 0, 0, 0⟩
    ⟨0x80000000, 4, 0, 0⟩ false 4 1 (by decide) (by decide)

/-- C4: the mask-register write (`set_mask`, a write to `MIO_INT_MASK1`)
replaces only the mask field and leaves events, levels and the NVRAM
latch exactly unchanged; and (second conjunct) already-set events bits
newly excluded by the mask are not cleared, so `events & ~mask == 0`
need not hold after `set_mask` alone. -/
theorem c4_set_mask_frame (s : GCState) (v size : Nat) :
    ((gc_write s MIO_INT_MASK1 v size).1.int_mask = byteswap32 (v % 4294967296) ∧
     (gc_write s MIO_INT_MASK1 v size).1.int_events = s.int_events ∧
     (gc_write s MIO_INT_MASK1 v size).1.int_levels = s.int_levels ∧
     (gc_write s MIO_INT_MASK1 v size).1.nvram_addr_hi = s.nvram_addr_hi) ∧
    ∃ s0 : GCState, ∃ v0 : Nat,
      (gc_write s0 MIO_INT_MASK1 v0 4).1.int_events &&&
        (0xFFFFFFFF ^^^ (gc_write s0 MIO_INT_MASK1 v0 4).1.int_mask) ≠ 0 :=
  ⟨⟨rfl, rfl, rfl, rfl⟩, ⟨0, 0, 1, 0⟩, 0, by decide⟩

/-- C9: configuration errors are fatal.  `register_dev_int` maps
exactly the known sources (VIA_CUDA to bit 18, SCSI1 to bit 12, SWIM3
to bit 19) and aborts (`none`) for every other source id;
`register_dma_int` aborts for every input; `ack_int` aborts whenever
the controller is in native mode (`int_mask & MACIO_INT_MODE` clear). -/
theorem c9_fatal_configuration (s : GCState) (irq lvl n : Nat)
    (hnative : s.int_mask &&& MACIO_INT_MODE = 0) :
    register_dev_int .VIA_CUDA = some (1 <<< 18) ∧
    register_dev_int .SCSI1 = some (1 <<< 12) ∧
    register_dev_int .SWIM3 = some (1 <<< 19) ∧
    register_dev_int (.other n) = none ∧
    register_dma_int (.other n) = none ∧
    ack_int s irq lvl = none := by
  refine ⟨rfl, rfl, rfl, rfl, rfl, ?_⟩
  unfold ack_int
  rw [if_neg (by simp [hnative])]

/-- Witness for C9 with the all-zero (native-mode) state. -/
theorem c9_fatal_configuration_witness :
    register_dev_int .VIA_CUDA = some (1 <<< 18) ∧
    register_dev_int .SCSI1 = some (1 <<< 12) ∧
    register_dev_int .SWIM3 = some (1 <<< 19) ∧
    register_dev_int (.other 42) = none ∧
    register_dma_int (.other 42) = none ∧
    ack_int gcInit 3 1 = none :=
  c9_fatal_configuration gcInit 3 1 42 (by decide)

/-- C10: mask-register round trip through the bus byte swap.  Writing
`v` to `MIO_INT_MASK1` (stored as `BYTESWAP_32(v)`) and then reading
`MIO_INT_MASK1` yields exactly `v`, and the read passes the controller
state through unchanged. -/
theorem c10_mask_roundtrip (s : GCState) (v szw szr : Nat)
    (hv : v < 4294967296) :
    gc_read (gc_write s MIO_INT_MASK1 v szw).1 MIO_INT_MASK1 szr =
      ((gc_write s MIO_INT_MASK1 v szw).1, .intMask v) := by
  have h1 : (gc_write s MIO_INT_MASK1 v szw).1.int_mask = byteswap32 v := by
    rw [gc_write_mask1]
    simp [Nat.mod_eq_of_lt hv]
  rw [gc_read_mask1, h1, byteswap32_byteswap32 v hv]

/-- Witness for C10 at value `0x12345678`. -/
theorem c10_mask_roundtrip_witness :
    gc_read (gc_write gcInit MIO_INT_MASK1 0x12345678 4).1 MIO_INT_MASK1 4 =
      ((gc_write gcInit MIO_INT_MASK1 0x12345678 4).1, .intMask 0x12345678) :=
  c10_mask_roundtrip gcInit 0x12345678 4 4 (by decide)

/-! ## Decode lemmas for the dispatcher -/

theorem gc_read_route_eq (s : GCState) (offset size : Nat) :
    ((gc_read s offset size).2).route = gc_read_route offset := by
  unfold gc_read gc_read_route
  by_cases h1 : offset &&& 0x10000 ≠ 0
  · rw [if_pos h1, if_pos h1]
    generalize hdd : (offset >>> 12) &&& 0xF = d
    have hd : d ≤ 15 := hdd ▸ Nat.and_le_right
    interval_cases d
    all_goals try rfl
    · by_cases hc : (offset &&& 0xFF) < 16
      · rw [if_pos hc, if_pos hc]; rfl
      · rw [if_neg hc, if_neg hc]; rfl
    · have hnv : (((s.nvram_addr_hi <<< 5) + ((offset >>> 4) &&& 0x1F)) %
          4294967296) % 32 = (offset >>> 4) &&& 0x1F := by
        rw [Nat.shiftLeft_eq, show (0x1F : Nat) = 2 ^ 5 - 1 by norm_num,
            Nat.and_pow_two_sub_one_eq_mod, Nat.shiftRight_eq_div_pow]
        omega
      exact congrArg GCRoute.nvramData hnv
  · rw [if_neg h1, if_neg h1]
    by_cases h2 : offset &&& 0x8000 ≠ 0
    · rw [if_pos h2, if_pos h2]
      generalize hdd : (offset >>> 12) &&& 0xF = d
      have hd : d ≤ 15 := hdd ▸ Nat.and_le_right
      interval_cases d <;> rfl
    · rw [if_neg h2, if_neg h2]
      by_cases hm : offset = MIO_INT_MASK1
      · rw [if_pos hm, if_pos hm]; rfl
      · rw [if_neg hm, if_neg hm]
        by_cases hl : offset = MIO_INT_LEVELS1
        · rw [if_pos hl, if_pos hl]; rfl
        · rw [if_neg hl, if_neg hl]
          by_cases he : offset = MIO_INT_EVENTS1
          · rw [if_pos he, if_pos he]; rfl
          · rw [if_neg he, if_neg he]; rfl

theorem gc_write_route_eq (s : GCState) (offset v size : Nat) :
    ((gc_write s offset v size).2).route = gc_write_route offset := by
  simp only [gc_write]
  unfold gc_write_route
  by_cases h1 : offset &&& 0x10000 ≠ 0
  · rw [if_pos h1, if_pos h1]
    generalize hdd : (offset >>> 12) &&& 0xF = d
    have hd : d ≤ 15 := hdd ▸ Nat.and_le_right
    interval_cases d
    all_goals try rfl
    · by_cases hc : (offset &&& 0xFF) < 16
      · rw [if_pos hc, if_pos hc]; rfl
      · rw [if_neg hc, if_neg hc]; rfl
    · have hnv : (((s.nvram_addr_hi <<< 5) + ((offset >>> 4) &&& 0x1F)) %
          4294967296) % 32 = (offset >>> 4) &&& 0x1F := by
        rw [Nat.shiftLeft_eq, show (0x1F : Nat) = 2 ^ 5 - 1 by norm_num,
            Nat.and_pow_two_sub_one_eq_mod, Nat.shiftRight_eq_div_pow]
        omega
      exact congrArg GCRoute.nvramData hnv
  · rw [if_neg h1, if_neg h1]
    by_cases h2 : offset &&& 0x8000 ≠ 0
    · rw [if_pos h2, if_pos h2]
      generalize hdd : (offset >>> 12) &&& 0xF = d
      have hd : d ≤ 15 := hdd ▸ Nat.and_le_right
      interval_cases d <;> rfl
    · rw [if_neg h2, if_neg h2]
      by_cases hm : offset = MIO_INT_MASK1
      · rw [if_pos hm, if_pos hm]; rfl
      · rw [if_neg hm, if_neg hm]
        by_cases hc : offset = MIO_INT_CLEAR1
        · rw [if_pos hc, if_pos hc]
          split <;> rfl
        · rw [if_neg hc, if_neg hc]; rfl

theorem gc_read_dev2 (s : GCState) (offset size : Nat)
    (hwin : offset &&& 0x10000 ≠ 0) (hsub : (offset >>> 12) &&& 0xF = 2) :
    gc_read s offset size =
      if (offset &&& 0xFF) < 16 then (s, .escc ((offset >>> 1) &&& 0xF))
      else (s, .escc ((offset >>> 4) &&& 0xF)) := by
  unfold gc_read
  rw [if_pos hwin, hsub]

theorem gc_write_dev2 (s : GCState) (offset v size : Nat)
    (hwin : offset &&& 0x10000 ≠ 0) (hsub : (offset >>> 12) &&& 0xF = 2) :
    gc_write s offset v size =
      if (offset &&& 0xFF) < 16 then
        (s, .escc ((offset >>> 1) &&& 0xF) (v % 4294967296))
      else (s, .escc ((offset >>> 4) &&& 0xF) (v % 4294967296)) := by
  simp only [gc_write]
  rw [if_pos hwin, hsub]

theorem gc_read_dev_unknown (s : GCState) (offset size : Nat)
    (hwin : offset &&& 0x10000 ≠ 0)
    (hsub : (offset >>> 12) &&& 0xF = 5 ∨ (offset >>> 12) &&& 0xF = 8 ∨
            (offset >>> 12) &&& 0xF = 9 ∨ (offset >>> 12) &&& 0xF = 0xB ∨
            (offset >>> 12) &&& 0xF = 0xC ∨ (offset >>> 12) &&& 0xF = 0xE) :
    gc_read s offset size = (s, .unmappedRead) := by
  unfold gc_read
  rw [if_pos hwin]
  rcases hsub with h | h | h | h | h | h <;> rw [h]

theorem gc_write_dev_unknown (s : GCState) (offset v size : Nat)
    (hwin : offset &&& 0x10000 ≠ 0)
    (hsub : (offset >>> 12) &&& 0xF = 5 ∨ (offset >>> 12) &&& 0xF = 8 ∨
            (offset >>> 12) &&& 0xF = 9 ∨ (offset >>> 12) &&& 0xF = 0xB ∨
            (offset >>> 12) &&& 0xF = 0xC ∨ (offset >>> 12) &&& 0xF = 0xE) :
    gc_write s offset v size = (s, .unmappedWrite) := by
  simp only [gc_write]
  rw [if_pos hwin]
  rcases hsub with h | h | h | h | h | h <;> rw [h]

theorem gc_read_dma_unknown (s : GCState) (offset size : Nat)
    (h1 : offset &&& 0x10000 = 0) (h2 : offset &&& 0x8000 ≠ 0)
    (h3 : (offset >>> 12) &&& 0xF ≠ 8) :
    gc_read s offset size = (s, .unmappedRead) := by
  unfold gc_read
  rw [if_neg (by simp [h1]), if_pos h2]
  generalize hdd : (offset >>> 12) &&& 0xF = d
  rw [hdd] at h3
  have hd : d ≤ 15 := hdd ▸ Nat.and_le_right
  interval_cases d <;> first | rfl | exact absurd rfl h3

theorem gc_write_dma_unknown (s : GCState) (offset v size : Nat)
    (h1 : offset &&& 0x10000 = 0) (h2 : offset &&& 0x8000 ≠ 0)
    (h3 : (offset >>> 12) &&& 0xF ≠ 8) :
    gc_write s offset v size = (s, .unmappedWrite) := by
  simp only [gc_write]
  rw [if_neg (by simp [h1]), if_pos h2]

theorem gc_read_int_unknown (s : GCState) (offset size : Nat)
    (h1 : offset &&& 0x10000 = 0) (h2 : offset &&& 0x8000 = 0)
    (hm : offset ≠ MIO_INT_MASK1) (hl : offset ≠ MIO_INT_LEVELS1)
    (he : offset ≠ MIO_INT_EVENTS1) :
    gc_read s offset size = (s, .unmappedRead) := by
  unfold gc_read
  rw [if_neg (by simp [h1]), if_neg (by simp [h2]), if_neg hm, if_neg hl,
      if_neg he]

theorem gc_write_int_unknown (s : GCState) (offset v size : Nat)
    (h1 : offset &&& 0x10000 = 0) (h2 : offset &&& 0x8000 = 0)
    (hm : offset ≠ MIO_INT_MASK1) (hc : offset ≠ MIO_INT_CLEAR1) :
    gc_write s offset v size = (s, .unmappedWrite) := by
  simp only [gc_write]
  rw [if_neg (by simp [h1]), if_neg (by simp [h2]), if_neg hm, if_neg hc]

/-- C5 counterexample: the final byte address passed to the routed NVRAM
data subdevice is not a pure function of the offset: after an earlier
write to the NVRAM high-address latch (subdevice 0xD), a read at the
same offset `0x1F000` decodes to a different subdevice byte address
than it does from the initial state. -/
theorem c5_routing_counterexample :
    (gc_read (gc_write gcInit 0x1D000 1 1).1 0x1F000 1).2 ≠
      (gc_read gcInit 0x1F000 1).2 := by decide

/-- C5 (amended): the (window, subdev_id, local_offset) routing triple
derived by `GrandCentral::read` / `GrandCentral::write` is a pure
function of the offset alone (`gc_read_route` / `gc_write_route`),
regardless of controller state and hence of call history; only the
final NVRAM byte address additionally depends on the NVRAM
high-address latch. -/
theorem c5_routing_determinism (s : GCState) (offset v size : Nat) :
    ((gc_read s offset size).2).route = gc_read_route offset ∧
    ((gc_write s offset v size).2).route = gc_write_route offset :=
  ⟨gc_read_route_eq s offset size, gc_write_route_eq s offset v size⟩

/-- C6: ESCC dual addressing with deliberate fallthrough.  A Device
Register access with subdevice id 2 and `offset & 0xFF == 5` routes to
the ESCC with the compact local index `(offset>>1)&0xF`; with
`offset & 0xFF == 20` the compact branch's guard fails and decoding
falls through to the extended scheme `(offset>>4)&0xF`. -/
theorem c6_escc_dual_addressing (s : GCState) (o5 o20 v size : Nat)
    (hw5 : o5 &&& 0x10000 ≠ 0) (hs5 : (o5 >>> 12) &&& 0xF = 2)
    (h5 : o5 &&& 0xFF = 5)
    (hw20 : o20 &&& 0x10000 ≠ 0) (hs20 : (o20 >>> 12) &&& 0xF = 2)
    (h20 : o20 &&& 0xFF = 20) :
    (gc_read s o5 size).2 = .escc ((o5 >>> 1) &&& 0xF) ∧
    (gc_write s o5 v size).2 = .escc ((o5 >>> 1) &&& 0xF) (v % 4294967296) ∧
    (gc_read s o20 size).2 = .escc ((o20 >>> 4) &&& 0xF) ∧
    (gc_write s o20 v size).2 = .escc ((o20 >>> 4) &&& 0xF) (v % 4294967296) := by
  refine ⟨?_, ?_, ?_, ?_⟩
  · rw [gc_read_dev2 s o5 size hw5 hs5, if_pos (by omega)]
  · rw [gc_write_dev2 s o5 v size hw5 hs5, if_pos (by omega)]
  · rw [gc_read_dev2 s o20 size hw20 hs20, if_neg (by omega)]
  · rw [gc_write_dev2 s o20 v size hw20 hs20, if_neg (by omega)]

/-- Witness for C6 at offsets `0x12005` (compact) and `0x12014`
(extended). -/
theorem c6_escc_dual_addressing_witness :
    (gc_read gcInit 0x12005 1).2 = .escc ((0x12005 >>> 1) &&& 0xF) ∧
    (gc_write gcInit 0x12005 7 1).2 = .escc ((0x12005 >>> 1) &&& 0xF) (7 % 4294967296) ∧
    (gc_read gcInit 0x12014 1).2 = .escc ((0x12014 >>> 4) &&& 0xF) ∧
    (gc_write gcInit 0x12014 7 1).2 = .escc ((0x12014 >>> 4) &&& 0xF) (7 % 4294967296) :=
  c6_escc_dual_addressing gcInit 0x12005 0x12014 7 1 (by decide) (by decide)
    (by decide) (by decide) (by decide) (by decide)

/-- C8: unknown-register accesses are recoverable.  For a Device
Register window offset whose subdevice id has no table entry (neither
the read nor the write dispatch handles it: ids 5, 8, 9, 0xB, 0xC,
0xE), for a DMA window offset with subdevice id other than 8, and for
an Interrupt Control window offset outside the fixed register set, a
read returns 0 (`unmappedRead`) and a write changes no controller
state; the embedded functions are total, mirroring that the C++ code
merely logs and continues. -/
theorem c8_unknown_register_recovery (s : GCState) (od om oi v size : Nat)
    (hd1 : od &&& 0x10000 ≠ 0)
    (hd2 : (od >>> 12) &&& 0xF = 5 ∨ (od >>> 12) &&& 0xF = 8 ∨
           (od >>> 12) &&& 0xF = 9 ∨ (od >>> 12) &&& 0xF = 0xB ∨
           (od >>> 12) &&& 0xF = 0xC ∨ (od >>> 12) &&& 0xF = 0xE)
    (hm1 : om &&& 0x10000 = 0) (hm2 : om &&& 0x8000 ≠ 0)
    (hm3 : (om >>> 12) &&& 0xF ≠ 8)
    (hi1 : oi &&& 0x10000 = 0) (hi2 : oi &&& 0x8000 = 0)
    (hi3 : oi ≠ MIO_INT_MASK1) (hi4 : oi ≠ MIO_INT_LEVELS1)
    (hi5 : oi ≠ MIO_INT_EVENTS1) (hi6 : oi ≠ MIO_INT_CLEAR1) :
    (gc_read s od size = (s, .unmappedRead) ∧
     ((gc_read s od size).2).retval = some 0 ∧
     gc_write s od v size = (s, .unmappedWrite)) ∧
    (gc_read s om size = (s, .unmappedRead) ∧
     ((gc_read s om size).2).retval = some 0 ∧
     gc_write s om v size = (s, .unmappedWrite)) ∧
    (gc_read s oi size = (s, .unmappedRead) ∧
     ((gc_read s oi size).2).retval = some 0 ∧
     gc_write s oi v size = (s, .unmappedWrite)) := by
  have r1 := gc_read_dev_unknown s od size hd1 hd2
  have r2 := gc_read_dma_unknown s om size hm1 hm2 hm3
  have r3 := gc_read_int_unknown s oi size hi1 hi2 hi3 hi4 hi5
  exact ⟨⟨r1, by rw [r1]; rfl, gc_write_dev_unknown s od v size hd1 hd2⟩,
         ⟨r2, by rw [r2]; rfl, gc_write_dma_unknown s om v size hm1 hm2 hm3⟩,
         ⟨r3, by rw [r3]; rfl, gc_write_int_unknown s oi v size hi1 hi2 hi3 hi6⟩⟩

/-- Witness for C8: device-window subdevice 5 (offset `0x15000`), DMA
window subdevice 9 (offset `0x9000`), interrupt-window offset `0x10`. -/
theorem c8_unknown_register_recovery_witness :
    (gc_read gcInit 0x15000 1 = (gcInit, .unmappedRead) ∧
     ((gc_read gcInit 0x15000 1).2).retval = some 0 ∧
     gc_write gcInit 0x15000 3 1 = (gcInit, .unmappedWrite)) ∧
    (gc_read gcInit 0x9000 1 = (gcInit, .unmappedRead) ∧
     ((gc_read gcInit 0x9000 1).2).retval = some 0 ∧
     gc_write gcInit 0x9000 3 1 = (gcInit, .unmappedWrite)) ∧
    (gc_read gcInit 0x10 1 = (gcInit, .unmappedRead) ∧
     ((gc_read gcInit 0x10 1).2).retval = some 0 ∧
     gc_write gcInit 0x10 3 1 = (gcInit, .unmappedWrite)) :=
  c8_unknown_register_recovery gcInit 0x15000 0x9000 0x10 3 1 (by decide)
    (by decide) (by decide) (by decide) (by decide) (by decide) (by decide)
    (by decide) (by decide) (by decide) (by decide)

end DingusPPC
